import Mathlib

/-!
# Verification of the UniframeStudio dubbing API client

A shallow embedding of the `ApiClient` class from `src/routes/+page.svelte`:
error normalization in `request`, the `uploadFile` transfer with its progress
handler, and the `pollPipelineStatus` polling loop with linear capped backoff.

Network effects are modelled by an explicit environment: each HTTP call's
outcome (response, timeout abort, transport error, or a non-Error throw) is an
input, and each callback invocation, scheduled delay, or issued status request
is recorded as an event in a trace.  Machine numbers are modelled as `Nat`
(JavaScript `Date.now()` and byte counts are nonnegative integers; the one
fractional computation, the upload percentage, is modelled by exact rational
rounding as documented at `progressPercent`).
-/

set_option autoImplicit false

namespace Uniframe

/-- The normalized failure value thrown by the client
(`class ApiClientError extends Error`): a machine-readable `code`, a
human-readable `message`, and an optional transport `status`. -/
structure ApiClientError where
  code : String
  message : String
  status : Option Nat
deriving DecidableEq

/-- The `{ code, message }` error-body shape (`ApiError` in `$lib/types/api_types`)
that `request` tries to parse out of a non-success response. -/
structure ApiErrorBody where
  code : String
  message : String
deriving DecidableEq

/-- The view of a fetched `Response` that `request` consumes: the `ok` flag,
the numeric `status`, the `statusText`, the result of parsing the body as an
error object (`none` when `response.json()` rejects), and the result of
parsing the body as the typed payload `β` (`Except.error m` when
`response.json()` rejects with an exception whose message is `m`). -/
structure HttpResponse (β : Type) where
  ok : Bool
  status : Nat
  statusText : String
  errorJson : Option ApiErrorBody
  bodyJson : Except String β

/-- Outcome of the `await fetch(url, config)` race against the
`setTimeout(() => controller.abort(), API_TIMEOUT)` timer:
either a response arrives, or the abort fires (`AbortError`), or the transport
rejects with some other `Error` carrying message `m`, or a non-`Error` value
is thrown. -/
inductive FetchOutcome (β : Type) where
  | success (resp : HttpResponse β)
  | abortError
  | otherError (m : String)
  | nonErrorThrow

/-- Per-request timeout budget: `const API_TIMEOUT = 30000`. -/
def API_TIMEOUT : Nat := 30000

/-- Upload timeout budget: `xhr.timeout = 600000` in `uploadFile`. -/
def uploadTimeoutMs : Nat := 600000

/-- The private `request<T>` helper of `ApiClient`, as a function of the fetch
outcome.  Mirrors `src/routes/+page.svelte` lines 458-510: a non-ok response
is turned into an `ApiClientError` built from the parsed error body, falling
back to `UNKNOWN_ERROR` with a message synthesized from the raw status line;
an `AbortError` becomes `TIMEOUT`; any other `Error` becomes `NETWORK_ERROR`;
a non-`Error` throw becomes `UNKNOWN_ERROR`; a success body that fails to
parse rejects inside the `try`, hence is normalized as `NETWORK_ERROR`. -/
def request (β : Type) (o : FetchOutcome β) : Except ApiClientError β :=
  match o with
  | FetchOutcome.success resp =>
    if resp.ok = false then
      let errorData : ApiErrorBody :=
        match resp.errorJson with
        | some e => e
        | none =>
          { code := "UNKNOWN_ERROR"
            message := "HTTP " ++ toString resp.status ++ ": " ++ resp.statusText }
      Except.error ⟨errorData.code, errorData.message, some resp.status⟩
    else
      match resp.bodyJson with
      | Except.ok v => Except.ok v
      | Except.error m =>
        Except.error ⟨"NETWORK_ERROR", "Network error: " ++ m, none⟩
  | FetchOutcome.abortError =>
    Except.error ⟨"TIMEOUT", "Request timeout", none⟩
  | FetchOutcome.otherError m =>
    Except.error ⟨"NETWORK_ERROR", "Network error: " ++ m, none⟩
  | FetchOutcome.nonErrorThrow =>
    Except.error ⟨"UNKNOWN_ERROR", "Unknown error occurred", none⟩

/-- Outcome of the `uploadFile` XMLHttpRequest: `onload` with a final status,
`onerror`, or `ontimeout` after the `uploadTimeoutMs` budget. -/
inductive UploadOutcome where
  | loaded (status : Nat) (statusText : String)
  | netError
  | timedOut

/-- Resolution of the `uploadFile` promise (lines 520-556): 2xx resolves,
any other completed status rejects with `UPLOAD_FAILED`, a transport error
rejects with `UPLOAD_ERROR`, and a timeout rejects with `UPLOAD_TIMEOUT`. -/
def uploadFileResult (u : UploadOutcome) : Except ApiClientError Unit :=
  match u with
  | UploadOutcome.loaded st stx =>
    if 200 ≤ st ∧ st < 300 then Except.ok ()
    else Except.error ⟨"UPLOAD_FAILED", "Upload failed: " ++ stx, none⟩
  | UploadOutcome.netError => Except.error ⟨"UPLOAD_ERROR", "Upload network error", none⟩
  | UploadOutcome.timedOut => Except.error ⟨"UPLOAD_TIMEOUT", "Upload timeout", none⟩

/-- One `xhr.upload.onprogress` event: the `lengthComputable` flag and the
`loaded` and `total` byte counts. -/
structure ProgressEvent where
  lengthComputable : Bool
  loaded : Nat
  total : Nat

/-- The percentage computed by the progress handler,
`Math.round((event.loaded / event.total) * 100)`, modelled by exact rational
arithmetic: `Math.round` rounds half away from zero on nonnegative input, and
`round (100 * l / t) = floor ((200 * l + t) / (2 * t))`, which is Nat
division. -/
def progressPercent (loaded total : Nat) : Nat :=
  (200 * loaded + total) / (2 * total)

/-- The sequence of percentages delivered to `onProgress` over a run of
length-computable progress events that share the transfer's byte `total` and
report the given `loadeds` counts. -/
def uploadProgressReports (total : Nat) (loadeds : List Nat) : List Nat :=
  loadeds.map fun l => progressPercent l total

/-- The pipeline status record as used by the polling loop
(`DubbingPipelineStatus`): the `status` label and the optional
`error_message`. -/
structure DubbingPipelineStatus where
  status : String
  error_message : Option String
deriving DecidableEq

/-- JavaScript truthiness of the optional string `status.error_message`:
`undefined` and the empty string are falsy. -/
def truthyStr (em : Option String) : Bool :=
  match em with
  | none => false
  | some s => s ≠ ""

/-- The JavaScript expression `em || d`: the string `em` when truthy,
otherwise the default `d`. -/
def jsOrStr (em : Option String) (d : String) : String :=
  match em with
  | none => d
  | some s => if s = "" then d else s

/-- Base poll interval: `const pollInterval = 3000`. -/
def pollInterval : Nat := 3000

/-- Consecutive-failure cap: `const maxConsecutiveErrors = 10`. -/
def maxConsecutiveErrors : Nat := 10

/-- Total-duration ceiling: `const maxDuration = 24 * 60 * 60 * 1000`. -/
def maxDuration : Nat := 24 * 60 * 60 * 1000

/-- Environment input for one cycle of the poll loop: the value of
`Date.now()` when the cycle starts, and the outcome of the
`getPipelineStatus` call it would issue. -/
structure CycleInput where
  now : Nat
  fetch : Except ApiClientError DubbingPipelineStatus

/-- Observable events of a poll run, in order: a `getPipelineStatus` request
issued, an `onUpdate`, `onComplete`, or `onError` callback invocation, and a
`setTimeout(poll, d)` scheduling the next cycle after `d` milliseconds. -/
inductive Event where
  | getStatus
  | update (s : DubbingPipelineStatus)
  | complete (s : DubbingPipelineStatus)
  | error (msg : String)
  | schedule (delayMs : Nat)
deriving DecidableEq

/-- The trace of `pollPipelineStatus` (lines 570-625) driven by the
environment `inputs`, one entry per cycle the loop reaches; the trace for the
whole call is `pollRun startTime 0 inputs`.  Each cycle: if elapsed wall-clock
time exceeds `maxDuration`, report the timeout error and stop; otherwise issue
`getPipelineStatus`.  On success reset the consecutive-error counter, invoke
`onUpdate`, then stop at `completed` (invoking `onComplete`) or at `failed` or
a truthy `error_message` (invoking `onError` with the message or the default),
else schedule the next cycle after `pollInterval`.  On failure increment the
counter, abandon at `maxConsecutiveErrors` with an exhausted-retries message,
else schedule after `min(pollInterval * counter, 30000)`. -/
def pollRun (startTime : Nat) : Nat → List CycleInput → List Event
  | _, [] => []
  | consecutiveErrors, c :: rest =>
    if c.now - startTime > maxDuration then
      [Event.error "Pipeline timeout - maximum duration exceeded (24 hours)"]
    else
      match c.fetch with
      | Except.ok status =>
        if status.status = "completed" then
          [Event.getStatus, Event.update status, Event.complete status]
        else if status.status = "failed" ∨ truthyStr status.error_message = true then
          [Event.getStatus, Event.update status,
            Event.error (jsOrStr status.error_message "Pipeline failed")]
        else
          Event.getStatus :: Event.update status :: Event.schedule pollInterval ::
            pollRun startTime 0 rest
      | Except.error e =>
        if consecutiveErrors + 1 ≥ maxConsecutiveErrors then
          [Event.getStatus, Event.error ("Too many consecutive errors: " ++ e.message)]
        else
          Event.getStatus ::
            Event.schedule (min (pollInterval * (consecutiveErrors + 1)) 30000) ::
            pollRun startTime (consecutiveErrors + 1) rest

/-- Number of events in a trace satisfying `p`. -/
def countE (p : Event → Bool) (tr : List Event) : Nat :=
  (tr.filter p).length

/-- Whether an event is an `onUpdate` invocation. -/
def isUpdate : Event → Bool
  | Event.update _ => true
  | _ => false

/-- Whether an event is an `onComplete` invocation. -/
def isComplete : Event → Bool
  | Event.complete _ => true
  | _ => false

/-- Whether an event is an `onError` invocation. -/
def isError : Event → Bool
  | Event.error _ => true
  | _ => false

/-- Whether an event is an issued `getPipelineStatus` request. -/
def isGet : Event → Bool
  | Event.getStatus => true
  | _ => false

/-- The part of a trace strictly after the first event satisfying `p`
(the whole computation stops there when no event satisfies `p`). -/
def afterFirst (p : Event → Bool) : List Event → List Event
  | [] => []
  | e :: tr => if p e then tr else afterFirst p tr

/-- The delays of all `setTimeout` scheduling events of a trace, in order. -/
def delays : List Event → List Nat
  | [] => []
  | Event.schedule d :: tr => d :: delays tr
  | _ :: tr => delays tr

end Uniframe

namespace Uniframe

/-- Branch lemma: a cycle starting past the 24-hour ceiling reports the
timeout error and nothing else. -/
theorem pollRun_timeout_cycle (start t ce : Nat)
    (f : Except ApiClientError DubbingPipelineStatus) (rest : List CycleInput)
    (h : t - start > maxDuration) :
    pollRun start ce (⟨t, f⟩ :: rest) =
      [Event.error "Pipeline timeout - maximum duration exceeded (24 hours)"] := by
  simp [pollRun, h]

/-- Branch lemma: within the ceiling, a successful fetch of a `completed`
status yields `onUpdate` then `onComplete` and stops. -/
theorem pollRun_completed_cycle (start t ce : Nat) (s : DubbingPipelineStatus)
    (rest : List CycleInput) (h : t - start ≤ maxDuration)
    (hs : s.status = "completed") :
    pollRun start ce (⟨t, Except.ok s⟩ :: rest) =
      [Event.getStatus, Event.update s, Event.complete s] := by
  simp [pollRun, not_lt.mpr h, hs]

/-- Branch lemma: within the ceiling, a successful fetch of a non-`completed`
status that is `failed` or carries a truthy `error_message` yields `onUpdate`
then `onError` and stops. -/
theorem pollRun_failed_cycle (start t ce : Nat) (s : DubbingPipelineStatus)
    (rest : List CycleInput) (h : t - start ≤ maxDuration)
    (hs : s.status ≠ "completed")
    (hf : s.status = "failed" ∨ truthyStr s.error_message = true) :
    pollRun start ce (⟨t, Except.ok s⟩ :: rest) =
      [Event.getStatus, Event.update s,
        Event.error (jsOrStr s.error_message "Pipeline failed")] := by
  simp [pollRun, not_lt.mpr h, hs, hf]

/-- Branch lemma: within the ceiling, a successful fetch of an in-progress
status yields `onUpdate`, schedules the next cycle after `pollInterval`, and
resets the consecutive-error counter. -/
theorem pollRun_progress_cycle (start t ce : Nat) (s : DubbingPipelineStatus)
    (rest : List CycleInput) (h : t - start ≤ maxDuration)
    (hs : s.status ≠ "completed") (hfs : s.status ≠ "failed")
    (he : truthyStr s.error_message = false) :
    pollRun start ce (⟨t, Except.ok s⟩ :: rest) =
      Event.getStatus :: Event.update s :: Event.schedule pollInterval ::
        pollRun start 0 rest := by
  simp [pollRun, not_lt.mpr h, hs, hfs, he]

/-- Branch lemma: within the ceiling, a failed fetch below the
consecutive-failure cap schedules the next cycle after the linear capped
backoff. -/
theorem pollRun_backoff_cycle (start t ce : Nat) (e : ApiClientError)
    (rest : List CycleInput) (h : t - start ≤ maxDuration)
    (hce : ce + 1 < maxConsecutiveErrors) :
    pollRun start ce (⟨t, Except.error e⟩ :: rest) =
      Event.getStatus ::
        Event.schedule (min (pollInterval * (ce + 1)) 30000) ::
        pollRun start (ce + 1) rest := by
  simp [pollRun, not_lt.mpr h, not_le.mpr hce]

/-- Branch lemma: within the ceiling, a failed fetch that reaches the
consecutive-failure cap reports the exhausted-retries error and stops. -/
theorem pollRun_abandon_cycle (start t ce : Nat) (e : ApiClientError)
    (rest : List CycleInput) (h : t - start ≤ maxDuration)
    (hce : ce + 1 ≥ maxConsecutiveErrors) :
    pollRun start ce (⟨t, Except.error e⟩ :: rest) =
      [Event.getStatus, Event.error ("Too many consecutive errors: " ++ e.message)] := by
  simp [pollRun, not_lt.mpr h, hce]

end Uniframe

namespace Uniframe

/-- C1: in a run of `pollPipelineStatus` whose `getPipelineStatus` outcomes
are the status sequence `[pending, pending, completed]` (fetched within the
24-hour ceiling), `onUpdate` fires exactly three times, `onComplete` exactly
once, every `onUpdate` precedes the terminal callback, and no further
`getPipelineStatus` call is issued after `onComplete` — whatever environment
`rest` would have followed. -/
theorem poll_pending_pending_completed
    (start t1 t2 t3 : Nat) (s1 s2 s3 : DubbingPipelineStatus) (rest : List CycleInput)
    (h1 : t1 - start ≤ maxDuration) (h2 : t2 - start ≤ maxDuration)
    (h3 : t3 - start ≤ maxDuration)
    (hs1 : s1.status = "pending") (he1 : truthyStr s1.error_message = false)
    (hs2 : s2.status = "pending") (he2 : truthyStr s2.error_message = false)
    (hs3 : s3.status = "completed") :
    let tr := pollRun start 0
      (⟨t1, Except.ok s1⟩ :: ⟨t2, Except.ok s2⟩ :: ⟨t3, Except.ok s3⟩ :: rest)
    countE isUpdate tr = 3 ∧ countE isComplete tr = 1 ∧ countE isGet tr = 3 ∧
      countE isUpdate (afterFirst isComplete tr) = 0 ∧
      countE isGet (afterFirst isComplete tr) = 0 := by
  intro tr
  have hns1 : s1.status ≠ "completed" := by rw [hs1]; decide
  have hnf1 : s1.status ≠ "failed" := by rw [hs1]; decide
  have hns2 : s2.status ≠ "completed" := by rw [hs2]; decide
  have hnf2 : s2.status ≠ "failed" := by rw [hs2]; decide
  have htr : tr =
      [Event.getStatus, Event.update s1, Event.schedule pollInterval,
        Event.getStatus, Event.update s2, Event.schedule pollInterval,
        Event.getStatus, Event.update s3, Event.complete s3] := by
    show pollRun start 0
        (⟨t1, Except.ok s1⟩ :: ⟨t2, Except.ok s2⟩ :: ⟨t3, Except.ok s3⟩ :: rest) = _
    rw [pollRun_progress_cycle start t1 0 s1
        (⟨t2, Except.ok s2⟩ :: ⟨t3, Except.ok s3⟩ :: rest) h1 hns1 hnf1 he1,
      pollRun_progress_cycle start t2 0 s2 (⟨t3, Except.ok s3⟩ :: rest) h2 hns2 hnf2 he2,
      pollRun_completed_cycle start t3 0 s3 rest h3 hs3]
  rw [htr]
  simp [countE, afterFirst, isUpdate, isComplete, isGet]

/-- Witness for C1 at a concrete environment. -/
theorem poll_pending_pending_completed_witness :
    countE isUpdate (pollRun 0 0
        [⟨0, Except.ok ⟨"pending", none⟩⟩, ⟨0, Except.ok ⟨"pending", none⟩⟩,
          ⟨0, Except.ok ⟨"completed", none⟩⟩]) = 3 ∧
      countE isComplete (pollRun 0 0
        [⟨0, Except.ok ⟨"pending", none⟩⟩, ⟨0, Except.ok ⟨"pending", none⟩⟩,
          ⟨0, Except.ok ⟨"completed", none⟩⟩]) = 1 ∧
      countE isGet (pollRun 0 0
        [⟨0, Except.ok ⟨"pending", none⟩⟩, ⟨0, Except.ok ⟨"pending", none⟩⟩,
          ⟨0, Except.ok ⟨"completed", none⟩⟩]) = 3 ∧
      countE isUpdate (afterFirst isComplete (pollRun 0 0
        [⟨0, Except.ok ⟨"pending", none⟩⟩, ⟨0, Except.ok ⟨"pending", none⟩⟩,
          ⟨0, Except.ok ⟨"completed", none⟩⟩])) = 0 ∧
      countE isGet (afterFirst isComplete (pollRun 0 0
        [⟨0, Except.ok ⟨"pending", none⟩⟩, ⟨0, Except.ok ⟨"pending", none⟩⟩,
          ⟨0, Except.ok ⟨"completed", none⟩⟩])) = 0 :=
  poll_pending_pending_completed 0 0 0 0 ⟨"pending", none⟩ ⟨"pending", none⟩
    ⟨"completed", none⟩ [] (Nat.zero_le _) (Nat.zero_le _) (Nat.zero_le _)
    rfl rfl rfl rfl rfl

end Uniframe

namespace Uniframe

/-- C2 counterexample: the claim as stated is false on the code.  The fetched
status `⟨completed, some "boom"⟩` carries a non-empty (truthy) error message,
so the claim requires `onError` to fire, yet the run invokes `onComplete` and
never `onError`: the `completed` check runs first. -/
theorem poll_failed_claim_counterexample :
    truthyStr (some "boom") = true ∧
    countE isError (pollRun 0 0 [⟨0, Except.ok ⟨"completed", some "boom"⟩⟩]) = 0 ∧
    countE isComplete (pollRun 0 0 [⟨0, Except.ok ⟨"completed", some "boom"⟩⟩]) = 1 := by
  decide

/-- C2 (amended): whenever a fetched status whose label is not `completed`
has label `failed` or carries a truthy `error_message`, `onError` fires
exactly once with that message (or the default `"Pipeline failed"` when the
message is absent or empty), and polling stops: no `getPipelineStatus` call
follows the `onError`. -/
theorem poll_failed_or_error_stops (start ce t : Nat) (s : DubbingPipelineStatus)
    (rest : List CycleInput) (ht : t - start ≤ maxDuration)
    (hnc : s.status ≠ "completed")
    (hf : s.status = "failed" ∨ truthyStr s.error_message = true) :
    pollRun start ce (⟨t, Except.ok s⟩ :: rest) =
      [Event.getStatus, Event.update s,
        Event.error (jsOrStr s.error_message "Pipeline failed")] ∧
    countE isError (pollRun start ce (⟨t, Except.ok s⟩ :: rest)) = 1 ∧
    countE isGet (afterFirst isError (pollRun start ce (⟨t, Except.ok s⟩ :: rest))) = 0 := by
  have htr := pollRun_failed_cycle start t ce s rest ht hnc hf
  rw [htr]
  simp [countE, afterFirst, isError, isGet]

/-- Witness for the amended C2 at a concrete environment. -/
theorem poll_failed_or_error_stops_witness :
    pollRun 0 0 [⟨0, Except.ok ⟨"failed", none⟩⟩] =
      [Event.getStatus, Event.update ⟨"failed", none⟩,
        Event.error (jsOrStr none "Pipeline failed")] ∧
    countE isError (pollRun 0 0 [⟨0, Except.ok ⟨"failed", none⟩⟩]) = 1 ∧
    countE isGet (afterFirst isError (pollRun 0 0 [⟨0, Except.ok ⟨"failed", none⟩⟩])) = 0 :=
  poll_failed_or_error_stops 0 0 0 ⟨"failed", none⟩ [] (Nat.zero_le _)
    (by decide) (Or.inl rfl)

/-- C9: when a fetched status is `completed` and also carries a truthy error
message, the `completed` check takes precedence: `onComplete` fires (after
`onUpdate`) and `onError` does not fire in that cycle. -/
theorem poll_completed_precedence (start ce t : Nat) (s : DubbingPipelineStatus)
    (rest : List CycleInput) (ht : t - start ≤ maxDuration)
    (hs : s.status = "completed") (_he : truthyStr s.error_message = true) :
    pollRun start ce (⟨t, Except.ok s⟩ :: rest) =
      [Event.getStatus, Event.update s, Event.complete s] ∧
    countE isError (pollRun start ce (⟨t, Except.ok s⟩ :: rest)) = 0 ∧
    countE isComplete (pollRun start ce (⟨t, Except.ok s⟩ :: rest)) = 1 := by
  have htr := pollRun_completed_cycle start t ce s rest ht hs
  rw [htr]
  simp [countE, isError, isComplete]

/-- Witness for C9 at a concrete environment. -/
theorem poll_completed_precedence_witness :
    pollRun 0 0 [⟨0, Except.ok ⟨"completed", some "boom"⟩⟩] =
      [Event.getStatus, Event.update ⟨"completed", some "boom"⟩,
        Event.complete ⟨"completed", some "boom"⟩] ∧
    countE isError (pollRun 0 0 [⟨0, Except.ok ⟨"completed", some "boom"⟩⟩]) = 0 ∧
    countE isComplete (pollRun 0 0 [⟨0, Except.ok ⟨"completed", some "boom"⟩⟩]) = 1 :=
  poll_completed_precedence 0 0 0 ⟨"completed", some "boom"⟩ [] (Nat.zero_le _)
    rfl (by decide)

end Uniframe

namespace Uniframe

/-- C4: when a poll cycle starts with more than `maxDuration` (24 hours) of
wall-clock time elapsed since the poll began, the run reports the
timeout-specific error via `onError` and ends: from that point no
`onComplete` fires and no further `getPipelineStatus` call is issued,
whatever the pending fetch outcome or later environment would have been. -/
theorem poll_duration_ceiling (start ce now : Nat)
    (f : Except ApiClientError DubbingPipelineStatus) (rest : List CycleInput)
    (h : now - start > maxDuration) :
    pollRun start ce (⟨now, f⟩ :: rest) =
      [Event.error "Pipeline timeout - maximum duration exceeded (24 hours)"] ∧
    countE isError (pollRun start ce (⟨now, f⟩ :: rest)) = 1 ∧
    countE isComplete (pollRun start ce (⟨now, f⟩ :: rest)) = 0 ∧
    countE isGet (pollRun start ce (⟨now, f⟩ :: rest)) = 0 := by
  have htr := pollRun_timeout_cycle start now ce f rest h
  rw [htr]
  simp [countE, isError, isComplete, isGet]

/-- Witness for C4 at a concrete environment. -/
theorem poll_duration_ceiling_witness :
    pollRun 0 0 [⟨86400001, Except.ok ⟨"pending", none⟩⟩] =
      [Event.error "Pipeline timeout - maximum duration exceeded (24 hours)"] ∧
    countE isError (pollRun 0 0 [⟨86400001, Except.ok ⟨"pending", none⟩⟩]) = 1 ∧
    countE isComplete (pollRun 0 0 [⟨86400001, Except.ok ⟨"pending", none⟩⟩]) = 0 ∧
    countE isGet (pollRun 0 0 [⟨86400001, Except.ok ⟨"pending", none⟩⟩]) = 0 :=
  poll_duration_ceiling 0 0 86400001 (Except.ok ⟨"pending", none⟩) [] (by decide)

end Uniframe

namespace Uniframe

/-- C3: a run whose first ten `getPipelineStatus` outcomes are consecutive
failures (each cycle starting within the 24-hour ceiling) issues exactly ten
requests, reports exactly one `onError` — the exhausted-retries message built
from the last failure — and stops; after the `n`-th consecutive failure
(`1 ≤ n ≤ 9`) the next cycle is scheduled after exactly
`min(pollInterval * n, 30000)` milliseconds, i.e. `3000 * n`. -/
theorem poll_ten_consecutive_failures (start : Nat)
    (t1 t2 t3 t4 t5 t6 t7 t8 t9 t10 : Nat)
    (e1 e2 e3 e4 e5 e6 e7 e8 e9 e10 : ApiClientError) (rest : List CycleInput)
    (ht1 : t1 - start ≤ maxDuration) (ht2 : t2 - start ≤ maxDuration)
    (ht3 : t3 - start ≤ maxDuration) (ht4 : t4 - start ≤ maxDuration)
    (ht5 : t5 - start ≤ maxDuration) (ht6 : t6 - start ≤ maxDuration)
    (ht7 : t7 - start ≤ maxDuration) (ht8 : t8 - start ≤ maxDuration)
    (ht9 : t9 - start ≤ maxDuration) (ht10 : t10 - start ≤ maxDuration) :
    pollRun start 0
        (⟨t1, Except.error e1⟩ :: ⟨t2, Except.error e2⟩ :: ⟨t3, Except.error e3⟩ ::
          ⟨t4, Except.error e4⟩ :: ⟨t5, Except.error e5⟩ :: ⟨t6, Except.error e6⟩ ::
          ⟨t7, Except.error e7⟩ :: ⟨t8, Except.error e8⟩ :: ⟨t9, Except.error e9⟩ ::
          ⟨t10, Except.error e10⟩ :: rest) =
      [Event.getStatus, Event.schedule (min (pollInterval * 1) 30000),
        Event.getStatus, Event.schedule (min (pollInterval * 2) 30000),
        Event.getStatus, Event.schedule (min (pollInterval * 3) 30000),
        Event.getStatus, Event.schedule (min (pollInterval * 4) 30000),
        Event.getStatus, Event.schedule (min (pollInterval * 5) 30000),
        Event.getStatus, Event.schedule (min (pollInterval * 6) 30000),
        Event.getStatus, Event.schedule (min (pollInterval * 7) 30000),
        Event.getStatus, Event.schedule (min (pollInterval * 8) 30000),
        Event.getStatus, Event.schedule (min (pollInterval * 9) 30000),
        Event.getStatus, Event.error ("Too many consecutive errors: " ++ e10.message)] ∧
    countE isError (pollRun start 0
        (⟨t1, Except.error e1⟩ :: ⟨t2, Except.error e2⟩ :: ⟨t3, Except.error e3⟩ ::
          ⟨t4, Except.error e4⟩ :: ⟨t5, Except.error e5⟩ :: ⟨t6, Except.error e6⟩ ::
          ⟨t7, Except.error e7⟩ :: ⟨t8, Except.error e8⟩ :: ⟨t9, Except.error e9⟩ ::
          ⟨t10, Except.error e10⟩ :: rest)) = 1 ∧
    countE isGet (pollRun start 0
        (⟨t1, Except.error e1⟩ :: ⟨t2, Except.error e2⟩ :: ⟨t3, Except.error e3⟩ ::
          ⟨t4, Except.error e4⟩ :: ⟨t5, Except.error e5⟩ :: ⟨t6, Except.error e6⟩ ::
          ⟨t7, Except.error e7⟩ :: ⟨t8, Except.error e8⟩ :: ⟨t9, Except.error e9⟩ ::
          ⟨t10, Except.error e10⟩ :: rest)) = 10 ∧
    delays (pollRun start 0
        (⟨t1, Except.error e1⟩ :: ⟨t2, Except.error e2⟩ :: ⟨t3, Except.error e3⟩ ::
          ⟨t4, Except.error e4⟩ :: ⟨t5, Except.error e5⟩ :: ⟨t6, Except.error e6⟩ ::
          ⟨t7, Except.error e7⟩ :: ⟨t8, Except.error e8⟩ :: ⟨t9, Except.error e9⟩ ::
          ⟨t10, Except.error e10⟩ :: rest)) =
      [3000, 6000, 9000, 12000, 15000, 18000, 21000, 24000, 27000] := by
  have htr : pollRun start 0
      (⟨t1, Except.error e1⟩ :: ⟨t2, Except.error e2⟩ :: ⟨t3, Except.error e3⟩ ::
        ⟨t4, Except.error e4⟩ :: ⟨t5, Except.error e5⟩ :: ⟨t6, Except.error e6⟩ ::
        ⟨t7, Except.error e7⟩ :: ⟨t8, Except.error e8⟩ :: ⟨t9, Except.error e9⟩ ::
        ⟨t10, Except.error e10⟩ :: rest) =
      [Event.getStatus, Event.schedule (min (pollInterval * 1) 30000),
        Event.getStatus, Event.schedule (min (pollInterval * 2) 30000),
        Event.getStatus, Event.schedule (min (pollInterval * 3) 30000),
        Event.getStatus, Event.schedule (min (pollInterval * 4) 30000),
        Event.getStatus, Event.schedule (min (pollInterval * 5) 30000),
        Event.getStatus, Event.schedule (min (pollInterval * 6) 30000),
        Event.getStatus, Event.schedule (min (pollInterval * 7) 30000),
        Event.getStatus, Event.schedule (min (pollInterval * 8) 30000),
        Event.getStatus, Event.schedule (min (pollInterval * 9) 30000),
        Event.getStatus, Event.error ("Too many consecutive errors: " ++ e10.message)] := by
    rw [pollRun_backoff_cycle start t1 0 e1 _ ht1 (by decide)]
    rw [pollRun_backoff_cycle start t2 1 e2 _ ht2 (by decide)]
    rw [pollRun_backoff_cycle start t3 2 e3 _ ht3 (by decide)]
    rw [pollRun_backoff_cycle start t4 3 e4 _ ht4 (by decide)]
    rw [pollRun_backoff_cycle start t5 4 e5 _ ht5 (by decide)]
    rw [pollRun_backoff_cycle start t6 5 e6 _ ht6 (by decide)]
    rw [pollRun_backoff_cycle start t7 6 e7 _ ht7 (by decide)]
    rw [pollRun_backoff_cycle start t8 7 e8 _ ht8 (by decide)]
    rw [pollRun_backoff_cycle start t9 8 e9 _ ht9 (by decide)]
    rw [pollRun_abandon_cycle start t10 9 e10 rest ht10 (by decide)]
  rw [htr]
  simp [countE, delays, isError, isGet, pollInterval]

/-- Witness for C3 at a concrete environment. -/
theorem poll_ten_consecutive_failures_witness :
    delays (pollRun 0 0 (List.replicate 10 (⟨0, Except.error ⟨"E", "boom", none⟩⟩ : CycleInput))) =
      [3000, 6000, 9000, 12000, 15000, 18000, 21000, 24000, 27000] ∧
    countE isError (pollRun 0 0
      (List.replicate 10 (⟨0, Except.error ⟨"E", "boom", none⟩⟩ : CycleInput))) = 1 :=
  let h := poll_ten_consecutive_failures 0 0 0 0 0 0 0 0 0 0 0
    ⟨"E", "boom", none⟩ ⟨"E", "boom", none⟩ ⟨"E", "boom", none⟩ ⟨"E", "boom", none⟩
    ⟨"E", "boom", none⟩ ⟨"E", "boom", none⟩ ⟨"E", "boom", none⟩ ⟨"E", "boom", none⟩
    ⟨"E", "boom", none⟩ ⟨"E", "boom", none⟩ []
    (Nat.zero_le _) (Nat.zero_le _) (Nat.zero_le _) (Nat.zero_le _) (Nat.zero_le _)
    (Nat.zero_le _) (Nat.zero_le _) (Nat.zero_le _) (Nat.zero_le _) (Nat.zero_le _)
  ⟨h.2.2.2, h.2.1⟩

end Uniframe

namespace Uniframe

/-- C10: in any poll run (from any reachable counter value, in particular the
initial 0), every scheduled delay equals `3000 * n` for some `1 ≤ n ≤ 9`, so
no delay exceeds 27000 ms and the 30000 ms cap in
`min(pollInterval * n, 30000)` is never the binding bound; the run abandons at
the tenth consecutive failure before a larger delay could be scheduled. -/
theorem poll_delays_linear (start ce : Nat) (inputs : List CycleInput) :
    ∀ d ∈ delays (pollRun start ce inputs),
      ∃ n, 1 ≤ n ∧ n ≤ 9 ∧ d = 3000 * n ∧ d ≤ 27000 := by
  induction inputs generalizing ce with
  | nil =>
    intro d hd
    simp [pollRun, delays] at hd
  | cons c rest ih =>
    intro d hd
    rcases c with ⟨t, f⟩
    by_cases htime : t - start > maxDuration
    · rw [pollRun_timeout_cycle start t ce f rest htime] at hd
      simp [delays] at hd
    · have hle : t - start ≤ maxDuration := not_lt.mp htime
      cases f with
      | ok s =>
        by_cases hc : s.status = "completed"
        · rw [pollRun_completed_cycle start t ce s rest hle hc] at hd
          simp [delays] at hd
        · by_cases hf : s.status = "failed" ∨ truthyStr s.error_message = true
          · rw [pollRun_failed_cycle start t ce s rest hle hc hf] at hd
            simp [delays] at hd
          · have hfs : s.status ≠ "failed" := fun h => hf (Or.inl h)
            have he : truthyStr s.error_message = false :=
              Bool.eq_false_iff.mpr (fun h => hf (Or.inr h))
            rw [pollRun_progress_cycle start t ce s rest hle hc hfs he] at hd
            simp only [delays, List.mem_cons] at hd
            rcases hd with rfl | hd
            · exact ⟨1, le_refl 1, by norm_num, by norm_num [pollInterval],
                by norm_num [pollInterval]⟩
            · exact ih 0 d hd
      | error e =>
        by_cases hce : ce + 1 ≥ maxConsecutiveErrors
        · rw [pollRun_abandon_cycle start t ce e rest hle hce] at hd
          simp [delays] at hd
        · have hlt : ce + 1 < maxConsecutiveErrors := not_le.mp hce
          have h9 : ce + 1 ≤ 9 := Nat.lt_succ_iff.mp hlt
          have hmul : pollInterval * (ce + 1) ≤ 27000 := by
            calc pollInterval * (ce + 1) ≤ pollInterval * 9 :=
                  Nat.mul_le_mul_left _ h9
              _ = 27000 := by norm_num [pollInterval]
          have hmin : min (pollInterval * (ce + 1)) 30000 = pollInterval * (ce + 1) :=
            min_eq_left (le_trans hmul (by norm_num))
          rw [pollRun_backoff_cycle start t ce e rest hle hlt] at hd
          simp only [delays, List.mem_cons, hmin] at hd
          rcases hd with rfl | hd
          · exact ⟨ce + 1, Nat.succ_le_succ (Nat.zero_le ce), h9,
              by norm_num [pollInterval], hmul⟩
          · exact ih (ce + 1) d hd

/-- Witness for C10 at a concrete environment: the delay scheduled after a
first transport failure. -/
theorem poll_delays_linear_witness :
    3000 ∈ delays (pollRun 0 0 [⟨0, Except.error ⟨"E", "boom", none⟩⟩]) ∧
    ∃ n, 1 ≤ n ∧ n ≤ 9 ∧ 3000 = 3000 * n ∧ 3000 ≤ 27000 :=
  ⟨by decide,
    poll_delays_linear 0 0 [⟨0, Except.error ⟨"E", "boom", none⟩⟩] 3000 (by decide)⟩

end Uniframe

namespace Uniframe

/-- C5: for every non-success HTTP response, `request` (hence `prepareUpload`,
`startPipeline` and `getPipelineStatus`, which all delegate to it) surfaces
exactly the parsed `{code, message}` error body when one exists, and
otherwise `UNKNOWN_ERROR` with a message synthesized from — and containing —
the numeric HTTP status; either way the failure carries the transport
status. -/
theorem request_non_ok_response (β : Type) (resp : HttpResponse β)
    (h : resp.ok = false) :
    (∀ c m, resp.errorJson = some ⟨c, m⟩ →
      request β (FetchOutcome.success resp) = Except.error ⟨c, m, some resp.status⟩) ∧
    (resp.errorJson = none →
      ∃ e : ApiClientError, request β (FetchOutcome.success resp) = Except.error e ∧
        e.code = "UNKNOWN_ERROR" ∧
        e.message = "HTTP " ++ toString resp.status ++ ": " ++ resp.statusText ∧
        (∃ pre post, e.message = pre ++ toString resp.status ++ post) ∧
        e.status = some resp.status) := by
  constructor
  · intro c m hj
    simp [request, h, hj]
  · intro hj
    refine ⟨⟨"UNKNOWN_ERROR",
        "HTTP " ++ toString resp.status ++ ": " ++ resp.statusText, some resp.status⟩,
      ?_, rfl, rfl, ⟨"HTTP ", ": " ++ resp.statusText, ?_⟩, rfl⟩
    · simp [request, h, hj]
    · rw [String.append_assoc]

/-- Witness for C5 at a concrete non-success response with a parsed body. -/
theorem request_non_ok_response_witness :
    request Unit (FetchOutcome.success
        ⟨false, 404, "Not Found", some ⟨"PIPELINE_MISSING", "no such pipeline"⟩,
          Except.error "x"⟩) =
      Except.error ⟨"PIPELINE_MISSING", "no such pipeline", some 404⟩ :=
  (request_non_ok_response Unit
      ⟨false, 404, "Not Found", some ⟨"PIPELINE_MISSING", "no such pipeline"⟩,
        Except.error "x"⟩ rfl).1
    "PIPELINE_MISSING" "no such pipeline" rfl

/-- C6: a call that loses the race against its timeout timer surfaces the
timeout-specific code — `TIMEOUT` for the `request` path (30-second budget
`API_TIMEOUT`), `UPLOAD_TIMEOUT` for the upload path (10-minute budget
`uploadTimeoutMs`) — and not the generic `NETWORK_ERROR` or `UPLOAD_ERROR`
transport codes. -/
theorem timeout_yields_timeout_code :
    API_TIMEOUT = 30000 ∧ uploadTimeoutMs = 600000 ∧
    (∀ β : Type, request β FetchOutcome.abortError =
      Except.error ⟨"TIMEOUT", "Request timeout", none⟩) ∧
    uploadFileResult UploadOutcome.timedOut =
      Except.error ⟨"UPLOAD_TIMEOUT", "Upload timeout", none⟩ ∧
    ("TIMEOUT" : String) ≠ "NETWORK_ERROR" ∧
    ("UPLOAD_TIMEOUT" : String) ≠ "UPLOAD_ERROR" :=
  ⟨rfl, rfl, fun _ => rfl, rfl, by decide, by decide⟩

/-- C7: every outcome of `request` and of `uploadFile` resolves to either a
success value or a single normalized `ApiClientError`; every failure's code is
from the client's taxonomy (`TIMEOUT`, `NETWORK_ERROR`, `UNKNOWN_ERROR`, the
upload codes) or is passed through verbatim from a parsed error body together
with its message and the transport status — no other failure shape reaches
the caller. -/
theorem failures_normalized :
    (∀ (β : Type) (o : FetchOutcome β),
      (∃ v, request β o = Except.ok v) ∨
      (∃ e : ApiClientError, request β o = Except.error e ∧
        (e.code = "TIMEOUT" ∨ e.code = "NETWORK_ERROR" ∨ e.code = "UNKNOWN_ERROR" ∨
          (∃ resp body, o = FetchOutcome.success resp ∧ resp.errorJson = some body ∧
            e.code = body.code ∧ e.message = body.message ∧
            e.status = some resp.status)))) ∧
    (∀ u : UploadOutcome,
      uploadFileResult u = Except.ok () ∨
      (∃ e : ApiClientError, uploadFileResult u = Except.error e ∧
        (e.code = "UPLOAD_FAILED" ∨ e.code = "UPLOAD_ERROR" ∨
          e.code = "UPLOAD_TIMEOUT"))) := by
  constructor
  · intro β o
    cases o with
    | success resp =>
      by_cases h : resp.ok = false
      · cases hj : resp.errorJson with
        | some body =>
          exact Or.inr ⟨⟨body.code, body.message, some resp.status⟩,
            by simp [request, h, hj],
            Or.inr (Or.inr (Or.inr ⟨resp, body, rfl, hj, rfl, rfl, rfl⟩))⟩
        | none =>
          exact Or.inr ⟨⟨"UNKNOWN_ERROR",
              "HTTP " ++ toString resp.status ++ ": " ++ resp.statusText,
              some resp.status⟩,
            by simp [request, h, hj], Or.inr (Or.inr (Or.inl rfl))⟩
      · have hok : resp.ok = true := by revert h; cases resp.ok <;> simp
        cases hb : resp.bodyJson with
        | ok v => exact Or.inl ⟨v, by simp [request, hok, hb]⟩
        | error m =>
          exact Or.inr ⟨⟨"NETWORK_ERROR", "Network error: " ++ m, none⟩,
            by simp [request, hok, hb], Or.inr (Or.inl rfl)⟩
    | abortError => exact Or.inr ⟨_, rfl, Or.inl rfl⟩
    | otherError m => exact Or.inr ⟨_, rfl, Or.inr (Or.inl rfl)⟩
    | nonErrorThrow => exact Or.inr ⟨_, rfl, Or.inr (Or.inr (Or.inl rfl))⟩
  · intro u
    cases u with
    | loaded st stx =>
      by_cases h : 200 ≤ st ∧ st < 300
      · exact Or.inl (by simp [uploadFileResult, h])
      · exact Or.inr ⟨⟨"UPLOAD_FAILED", "Upload failed: " ++ stx, none⟩,
          by simp [uploadFileResult, h], Or.inl rfl⟩
    | netError => exact Or.inr ⟨_, rfl, Or.inr (Or.inl rfl)⟩
    | timedOut => exact Or.inr ⟨_, rfl, Or.inr (Or.inr rfl)⟩

end Uniframe

namespace Uniframe

/-- Helper: the rounded percentage is monotone in the loaded byte count. -/
theorem progressPercent_mono (total : Nat) {a b : Nat} (hab : a ≤ b) :
    progressPercent a total ≤ progressPercent b total :=
  Nat.div_le_div_right (Nat.add_le_add_right (Nat.mul_le_mul_left 200 hab) total)

/-- Helper: with `loaded ≤ total` and a positive total, the rounded
percentage is at most 100. -/
theorem progressPercent_le_100 (total loaded : Nat) (h0 : 0 < total)
    (hle : loaded ≤ total) : progressPercent loaded total ≤ 100 := by
  have hk : 0 < 2 * total := Nat.mul_pos (by norm_num) h0
  have h : 200 * loaded + total < 101 * (2 * total) := by
    calc 200 * loaded + total ≤ 200 * total + total :=
          Nat.add_le_add_right (Nat.mul_le_mul_left 200 hle) total
      _ = 201 * total := by ring
      _ < 202 * total := (Nat.mul_lt_mul_right h0).mpr (by norm_num)
      _ = 101 * (2 * total) := by ring
  have hlt : progressPercent loaded total < 101 := by
    unfold progressPercent
    exact (Nat.div_lt_iff_lt_mul hk).mpr (by linarith [h])
  exact Nat.lt_succ_iff.mp hlt

/-- C8: over any run of length-computable progress events with a positive
shared `total`, per-event `loaded` counts bounded by `total`, and
non-decreasing `loaded` across events, the `onProgress` callback receives a
non-decreasing sequence of integer percentages, each between 0 and 100. -/
theorem upload_progress_monotone_bounded (total : Nat) (loadeds : List Nat)
    (h0 : 0 < total) (hle : ∀ l ∈ loadeds, l ≤ total)
    (hmono : List.Pairwise (· ≤ ·) loadeds) :
    List.Pairwise (· ≤ ·) (uploadProgressReports total loadeds) ∧
    ∀ p ∈ uploadProgressReports total loadeds, 0 ≤ p ∧ p ≤ 100 := by
  constructor
  · exact List.Pairwise.map _ (fun a b hab => progressPercent_mono total hab) hmono
  · intro p hp
    rcases List.mem_map.mp hp with ⟨l, hl, rfl⟩
    exact ⟨Nat.zero_le _, progressPercent_le_100 total l h0 (hle l hl)⟩

/-- Witness for C8 at a concrete event sequence. -/
theorem upload_progress_monotone_bounded_witness :
    List.Pairwise (· ≤ ·) (uploadProgressReports 200 [0, 100, 100, 199, 200]) ∧
    ∀ p ∈ uploadProgressReports 200 [0, 100, 100, 199, 200], 0 ≤ p ∧ p ≤ 100 :=
  upload_progress_monotone_bounded 200 [0, 100, 100, 199, 200]
    (by decide) (by decide) (by decide)

end Uniframe
